import Mathlib

/-!
Verification development for the Tab Groups Manager classification engine
(background service: `TabGroupManager`).  The definitions below are a shallow
embedding of the TypeScript source: template compilation
(`createAutoPattern`), auto-pattern matching (`matchAutoPattern`), the
per-tab classification/orchestration (`handleTabUpdate`,
`groupExistingTabStep`), the configuration mutations (`addPattern`,
`addAutoPattern`, `removeAutoPattern`, `setAutoPatterns`), and settings
persistence (`saveSettings` data mapping and its reload).
-/

/-- `pat` is a prefix of `s` (character lists). -/
def isPrefixList : List Char → List Char → Bool
  | [], _ => true
  | _ :: _, [] => false
  | p :: ps, c :: cs => p = c && isPrefixList ps cs

/-- JS `String.prototype.replace` with a global literal pattern: replace
every non-overlapping occurrence of `pat` by `rep`, scanning left to right.
`fuel` is the length of the input, enough since each step consumes at least
one character. -/
def replaceAllAux (pat rep : List Char) : Nat → List Char → List Char
  | _, [] => []
  | 0, s => s
  | f + 1, c :: cs =>
    if isPrefixList pat (c :: cs) then
      rep ++ replaceAllAux pat rep f (List.drop (pat.length - 1) cs)
    else
      c :: replaceAllAux pat rep f cs

/-- String wrapper for `replaceAllAux`. -/
def replaceAllStr (s pat rep : String) : String :=
  (replaceAllAux pat.data rep.data s.data.length s.data).asString

/-- JS `String.prototype.includes` for a non-empty needle, on char lists. -/
def containsSubAux (sub : List Char) : List Char → Bool
  | [] => isPrefixList sub []
  | c :: cs => isPrefixList sub (c :: cs) || containsSubAux sub cs

/-- JS `String.prototype.includes`. -/
def strIncludes (s sub : String) : Bool :=
  containsSubAux sub.data s.data

/-- JS `String.prototype.startsWith`. -/
def jsStartsWith (s pre : String) : Bool :=
  isPrefixList pre.data s.data

/-- Split a char list at the first occurrence of `sep` (non-empty),
returning the part before and the part after. -/
def splitOnceAux (sep : List Char) : List Char → Option (List Char × List Char)
  | [] => if sep = [] then some ([], []) else none
  | c :: cs =>
    if isPrefixList sep (c :: cs) then some ([], List.drop (sep.length - 1) cs)
    else (splitOnceAux sep cs).map (fun pr => (c :: pr.1, pr.2))

/-- Elements of the regular expressions generated by `createAutoPattern`:
a literal character, the character class `[^.]+` produced from the `*`
wildcard, and the capturing group `([^.]+)` produced from `:name`. -/
inductive RElem
  | lit (c : Char)
  | cls
  | grp
deriving DecidableEq, Repr

/-- Length of the maximal non-dot prefix of a character list: the most that
a single `[^.]+` atom can consume at this position. -/
def nonDotLen (ds : List Char) : Nat :=
  (ds.takeWhile (fun c => c != '.')).length

/-- Greedy backtracking loop for one `[^.]+` atom (JS regex semantics): try
consuming `n` characters, then `n - 1`, ..., down to `1`; `k` matches the
rest of the pattern against the remaining input.  When `isGrp` is true the
consumed characters are recorded as a capture. -/
def tryLens (k : List Char → Option (List String)) (isGrp : Bool) (ds : List Char) :
    Nat → Option (List String)
  | 0 => none
  | n + 1 =>
    match k (ds.drop (n + 1)) with
    | some caps => some (if isGrp then ((ds.take (n + 1)).asString :: caps) else caps)
    | none => tryLens k isGrp ds n

/-- Anchored matching of a parsed regex element list against a character
list, returning the list of group captures (in group order) on success.
Greedy with backtracking, as in the JS regex engine. -/
def matchElems : List RElem → List Char → Option (List String)
  | [], [] => some []
  | [], _ :: _ => none
  | .lit _ :: _, [] => none
  | .lit c :: es, d :: ds => if c = d then matchElems es ds else none
  | .cls :: es, ds => tryLens (fun rest => matchElems es rest) false ds (nonDotLen ds)
  | .grp :: es, ds => tryLens (fun rest => matchElems es rest) true ds (nonDotLen ds)

/-- Characters that are regex metacharacters in JS: a generated regex
containing one of these outside the recognised `\.`, `[^.]+` and `([^.]+)`
token forms is outside the modelled fragment. -/
def isRegexMeta (c : Char) : Bool :=
  c = '\\' || c = '^' || c = '$' || c = '.' || c = '|' || c = '?' ||
  c = '*' || c = '+' || c = '(' || c = ')' || c = '[' || c = ']' ||
  c = Char.ofNat 123 || c = Char.ofNat 125

/-- Parser for the bodies of the regexes generated by `createAutoPattern`:
escaped dots, `[^.]+` classes, `([^.]+)` groups, and plain literal
characters.  Returns `none` outside this fragment. -/
def parseRegexChars : List Char → Option (List RElem)
  | [] => some []
  | '\\' :: '.' :: rest => (parseRegexChars rest).map (RElem.lit '.' :: ·)
  | '(' :: '[' :: '^' :: '.' :: ']' :: '+' :: ')' :: rest =>
    (parseRegexChars rest).map (RElem.grp :: ·)
  | '[' :: '^' :: '.' :: ']' :: '+' :: rest =>
    (parseRegexChars rest).map (RElem.cls :: ·)
  | c :: rest =>
    if isRegexMeta c then none else (parseRegexChars rest).map (RElem.lit c :: ·)

/-- `String.match` against an anchored regex source string `"^...$"` (the
shape produced by `createAutoPattern`): parse the body and run the matcher.
Returns the capture list on success. -/
def jsRegexMatch (src : String) (s : String) : Option (List String) :=
  match src.data with
  | '^' :: rest =>
    if rest.getLast? = some '$' then
      match parseRegexChars rest.dropLast with
      | some es => matchElems es s.data
      | none => none
    else none
  | _ => none

/-- `name.charAt(0).toUpperCase() + name.slice(1)` from `matchAutoPattern`. -/
def capFirst (name : String) : String :=
  match name.data with
  | [] => ""
  | c :: cs => String.mk (c.toUpper :: cs)

/-- The `AutoPattern` record from the source: the original template, the
compiled regex (kept as its source string `"^...$"`; `regex.source` is this
string), and the capture-group index of the name. -/
structure AutoPattern where
  template : String
  regexSrc : String
  namePosition : Nat
deriving DecidableEq, Repr

/-- `template.indexOf(':name') !== -1`. -/
def containsName (template : String) : Bool :=
  strIncludes template ":name"

/-- `TabGroupManager.createAutoPattern`: fails when the template lacks a
`:name` placeholder; otherwise escapes dots, turns `*` into `[^.]+`, turns
`:name` into `([^.]+)`, and anchors the result with `^` and `$`.  The
capture position is always 1. -/
def createAutoPattern (template : String) : Option AutoPattern :=
  if containsName template then
    let regexStr :=
      replaceAllStr (replaceAllStr (replaceAllStr template "." "\\.") "*" "[^.]+") ":name" "([^.]+)"
    some ⟨template, "^" ++ regexStr ++ "$", 1⟩
  else
    none

/-- `TabGroupManager.matchAutoPattern`: test the domain against each
auto-pattern in order; on the first match whose capture at `namePosition`
is a non-empty string, return that capture with its first character
upper-cased.  The JS match array is the full match followed by the
captures; with an anchored match the full match is the whole domain. -/
def matchAutoPattern (aps : List AutoPattern) (domain : String) : Option String :=
  match aps with
  | [] => none
  | p :: rest =>
    match jsRegexMatch p.regexSrc domain with
    | some caps =>
      match (domain :: caps)[p.namePosition]? with
      | some name => if name ≠ "" then some (capFirst name) else matchAutoPattern rest domain
      | none => matchAutoPattern rest domain
    | none => matchAutoPattern rest domain

/-- The `DomainPattern` record from the source: a manual pattern.  The
compiled `RegExp` is modelled by its source text together with its `test`
function on domains (an arbitrary predicate, since manual patterns are
user-supplied regexes). -/
structure DomainPattern where
  patternStr : String
  test : String → Bool
  groupName : String
  color : Option String

/-- The `StoredPattern` record: the persisted form of a manual pattern. -/
structure StoredPattern where
  patternStr : String
  groupName : String
  color : Option String
deriving DecidableEq, Repr

/-- The persisted form of an auto-pattern written by `saveSettings`:
the original template, the compiled regex source (`p.regex.source`), and
the capture position. -/
structure SavedAutoPattern where
  template : String
  regexStr : String
  namePosition : Nat
deriving DecidableEq, Repr

/-- The data `saveSettings` writes under the `autoPatterns` storage key:
each pattern is serialized with its template, its compiled regex source
string, and its name position. -/
def saveAutoPatternsData (aps : List AutoPattern) : List SavedAutoPattern :=
  aps.map (fun p => ⟨p.template, p.regexSrc, p.namePosition⟩)

/-- The default auto-pattern list of `loadPatternsFromStorage`:
`[this.createAutoPattern(':name.*')]` (the compilation succeeds since the
template contains `:name`). -/
def defaultAutoPatterns : List AutoPattern :=
  match createAutoPattern ":name.*" with
  | some ap => [ap]
  | none => []

/-- The reconstruction performed by `loadPatternsFromStorage` on stored
auto-patterns: the stored list is used only when
`result.autoPatterns.length > 0`; then `new RegExp(p.regexStr)` rebuilds
each matcher directly from the saved regex source (the template is not
recompiled).  An empty (or absent) stored list leaves the default
`':name.*'` pattern in place. -/
def loadAutoPatternsData (saved : List SavedAutoPattern) : List AutoPattern :=
  if saved.length > 0 then
    saved.map (fun p => ⟨p.template, p.regexStr, p.namePosition⟩)
  else defaultAutoPatterns

/-- JS `Map.get` (keys are strings). -/
def mapGet? : List (String × String) → String → Option String
  | [], _ => none
  | e :: rest, k => if e.1 = k then some e.2 else mapGet? rest k

/-- JS `Map.set`: replace the entry in place if the key is present,
otherwise append. -/
def mapSet : List (String × String) → String → String → List (String × String)
  | [], k, v => [(k, v)]
  | e :: rest, k, v => if e.1 = k then (k, v) :: rest else e :: mapSet rest k v

/-- The mutable fields of `TabGroupManager`, together with the
`chrome.storage.local` keys the manager writes (`stored*` fields model the
persisted settings). -/
structure ManagerState where
  domainPatterns : List DomainPattern
  enableAutoPatterns : Bool
  autoPatterns : List AutoPattern
  autoPatternCache : List (String × String)
  processedUrls : List (String × String)
  storedDomainPatterns : List StoredPattern
  storedAutoPatterns : List SavedAutoPattern
  storedEnableAutoPatterns : Bool

/-- `chrome.tabGroups.TAB_GROUP_ID_NONE`. -/
def TAB_GROUP_ID_NONE : Int := -1

/-- The fields of `chrome.tabs.Tab` the manager reads. -/
structure Tab where
  id : Option Nat
  url : Option String
  groupId : Int

/-- One call to `addTabToGroup(tabId, groupName, color)`: the external
group-assignment request emitted by the orchestrator. -/
structure AssignRequest where
  tabId : Nat
  groupName : String
  color : Option String
deriving DecidableEq, Repr

/-- Modelled from the host environment: `new URL(url).hostname` — the part
after the first `"://"` up to the first `/`, `:`, `?` or `#`; `none` models
the `URL` constructor throwing. -/
def hostnameOf (url : String) : Option String :=
  match splitOnceAux "://".data url.data with
  | some (scheme, rest) =>
    if scheme = [] then none
    else
      let host := rest.takeWhile (fun c => c != '/' && c != ':' && c != '?' && c != '#')
      if host = [] then none else some host.asString
  | none => none

/-- Either `Matched(groupName, color)` or `NoMatch`: the outcome of
classifying one domain. -/
inductive ClassificationResult
  | matched (groupName : String) (color : Option String)
  | noMatch
deriving DecidableEq, Repr

/-- The classification logic of `handleTabUpdate` (lines 338-365) on a
cache miss: manual patterns in store order first (first match wins, with
its group name and color); only if none matches and auto-patterns are
enabled, the auto-pattern templates (matched group gets no color). -/
def classify (dps : List DomainPattern) (enableAuto : Bool) (aps : List AutoPattern)
    (domain : String) : ClassificationResult :=
  match dps.find? (fun p => p.test domain) with
  | some p => .matched p.groupName p.color
  | none =>
    if enableAuto then
      match matchAutoPattern aps domain with
      | some g => .matched g none
      | none => .noMatch
    else .noMatch

/-- `TabGroupManager.handleTabUpdate`: skip grouped tabs, tabs without URL
or id, and internal URLs; serve from the `processedUrls` cache when
present (a non-empty cached name is re-assigned, an empty cached name
means a cached no-match); otherwise classify the hostname, emit the
assignment request, and write the caches (`autoPatternCache` only on an
auto-pattern match; a no-match is cached as `""`). -/
def handleTabUpdate (st : ManagerState) (tab : Tab) : ManagerState × List AssignRequest :=
  if tab.groupId ≠ TAB_GROUP_ID_NONE then (st, [])
  else
    match tab.url, tab.id with
    | some url, some tid =>
      if jsStartsWith url "chrome://" || jsStartsWith url "brave://" then (st, [])
      else
        match mapGet? st.processedUrls url with
        | some cached => if cached ≠ "" then (st, [⟨tid, cached, none⟩]) else (st, [])
        | none =>
          match hostnameOf url with
          | none => (st, [])
          | some domain =>
            match st.domainPatterns.find? (fun p => p.test domain) with
            | some p =>
              ({st with processedUrls := mapSet st.processedUrls url p.groupName},
               [⟨tid, p.groupName, p.color⟩])
            | none =>
              if st.enableAutoPatterns then
                match matchAutoPattern st.autoPatterns domain with
                | some g =>
                  ({st with autoPatternCache := mapSet st.autoPatternCache domain g,
                            processedUrls := mapSet st.processedUrls url g},
                   [⟨tid, g, none⟩])
                | none => ({st with processedUrls := mapSet st.processedUrls url ""}, [])
              else ({st with processedUrls := mapSet st.processedUrls url ""}, [])
    | _, _ => (st, [])

/-- `TabGroupManager.clearUrlCache`. -/
def clearUrlCache (st : ManagerState) : ManagerState :=
  {st with processedUrls := []}

/-- `TabGroupManager.savePatterns`: persist the manual patterns by their
regex source text. -/
def savePatterns (st : ManagerState) : ManagerState :=
  {st with storedDomainPatterns :=
    st.domainPatterns.map (fun p => ⟨p.patternStr, p.groupName, p.color⟩)}

/-- `TabGroupManager.saveSettings`: persist the auto-patterns (template,
regex source and name position) and the enabled flag. -/
def saveSettings (st : ManagerState) : ManagerState :=
  {st with storedAutoPatterns := saveAutoPatternsData st.autoPatterns,
           storedEnableAutoPatterns := st.enableAutoPatterns}

/-- `TabGroupManager.addPattern`: `compiled` is the outcome of
`new RegExp(patternStr)` (`none` models the constructor throwing).  On
success the pattern is appended, the patterns are persisted and the URL
cache is cleared; on failure the error is caught and logged and the state
is untouched. -/
def addPattern (st : ManagerState) (compiled : Option (String → Bool))
    (patternStr groupName : String) (color : Option String) : ManagerState :=
  match compiled with
  | some t =>
    clearUrlCache (savePatterns
      {st with domainPatterns := st.domainPatterns ++ [⟨patternStr, t, groupName, color⟩]})
  | none => st

/-- The `addPattern` branch of the `chrome.runtime.onMessage` listener
(lines 881-890): call `addPattern` and respond `{success: true}`
unconditionally. -/
def addPatternMessage (st : ManagerState) (compiled : Option (String → Bool))
    (patternStr groupName : String) (color : Option String) : ManagerState × Bool :=
  (addPattern st compiled patternStr groupName color, true)

/-- `TabGroupManager.addAutoPattern`: reject templates without `:name` and
duplicate templates (returning `false` with the state untouched);
otherwise compile, append, persist the settings and clear the URL cache. -/
def addAutoPattern (st : ManagerState) (template : String) : ManagerState × Bool :=
  if ¬ containsName template then (st, false)
  else if st.autoPatterns.any (fun p => p.template = template) then (st, false)
  else
    match createAutoPattern template with
    | some ap =>
      (clearUrlCache (saveSettings {st with autoPatterns := st.autoPatterns ++ [ap]}), true)
    | none => (st, false)

/-- Concrete compiled auto-pattern for the template `":name.example.com"`. -/
def apDotExample : AutoPattern := ⟨":name.example.com", "^([^.]+)\\.example\\.com$", 1⟩

/-- Concrete compiled auto-pattern for the default template `":name.*"`. -/
def autoStar : AutoPattern := ⟨":name.*", "^([^.]+)\\.[^.]+$", 1⟩

/-- Concrete compiled auto-pattern for the template `":name.*.example.com"`. -/
def apNameWildcard : AutoPattern := ⟨":name.*.example.com", "^([^.]+)\\.[^.]+\\.example\\.com$", 1⟩

/-- Concrete manual pattern `github\.com -> GitHub (blue)`. -/
def mpGithub : DomainPattern := ⟨"github\\.com", fun d => d == "github.com", "GitHub", some "blue"⟩

/-- `find?` returns the first element of the list satisfying the predicate:
if everything before `p` fails the test and `p` passes, `find?` is `p`. -/
theorem find?_first_match (l1 l2 : List DomainPattern) (p : DomainPattern) (d : String)
    (h1 : ∀ q ∈ l1, q.test d = false) (h2 : p.test d = true) :
    (l1 ++ p :: l2).find? (fun q => q.test d) = some p := by
  induction l1 with
  | nil => simp [List.find?_cons, h2]
  | cons a as ih =>
    have ha := h1 a (by simp)
    simp only [List.cons_append, List.find?_cons, ha]
    exact ih (fun q hq => h1 q (by simp [hq]))

/-- Looking up the key just written by `mapSet` yields the written value. -/
theorem mapGet?_mapSet_self (m : List (String × String)) (k v : String) :
    mapGet? (mapSet m k v) k = some v := by
  induction m with
  | nil => simp [mapSet, mapGet?]
  | cons e rest ih =>
    by_cases h : e.1 = k
    · simp [mapSet, mapGet?, h]
    · simp [mapSet, mapGet?, h, ih]

/-- C1: For every domain and every configuration state, if some manual
pattern in the store matches the domain, classification returns the group
name and color of the first matching manual pattern in insertion order,
and the auto-pattern templates are never consulted: the result is
independent of the enabled flag and of the auto-pattern list. -/
theorem c1_manual_patterns_precede_auto
    (dps1 dps2 : List DomainPattern) (p : DomainPattern) (e e' : Bool)
    (aps aps' : List AutoPattern) (d : String)
    (h1 : ∀ q ∈ dps1, q.test d = false) (h2 : p.test d = true) :
    classify (dps1 ++ p :: dps2) e aps d = .matched p.groupName p.color ∧
    classify (dps1 ++ p :: dps2) e aps d = classify (dps1 ++ p :: dps2) e' aps' d := by
  have hf := find?_first_match dps1 dps2 p d h1 h2
  constructor
  · simp [classify, hf]
  · simp [classify, hf]

/-- Witness for C1: the manual pattern for `github.com` wins over the
default auto-pattern `":name.*"` (which on its own would produce
`"Github"`), and the result does not depend on the auto-pattern
configuration. -/
theorem c1_manual_patterns_precede_auto_witness :
    classify [mpGithub] true [autoStar] "github.com" = .matched "GitHub" (some "blue") ∧
    classify [mpGithub] true [autoStar] "github.com" = classify [mpGithub] false [] "github.com" :=
  c1_manual_patterns_precede_auto [] [] mpGithub true false [autoStar] [] "github.com"
    (by intro q hq; cases hq) (by decide)

/-- C4: Compiling `":name.example.com"` and classifying
`"dev.example.com"` yields `"Dev"`: the captured label is normalized by
upper-casing only its first character. -/
theorem c4_template_capitalizes_first :
    createAutoPattern ":name.example.com" = some apDotExample ∧
    matchAutoPattern [apDotExample] "dev.example.com" = some "Dev" := by decide

/-- C5: Compiling `":name.*.example.com"` and classifying
`"project.dev.example.com"` yields `"Project"`, while `"example.com"`
yields no match; the compiled matcher is anchored, so a superstring such as
`"a.project.dev.example.com"` does not match either. -/
theorem c5_wildcard_anchored :
    createAutoPattern ":name.*.example.com" = some apNameWildcard ∧
    matchAutoPattern [apNameWildcard] "project.dev.example.com" = some "Project" ∧
    matchAutoPattern [apNameWildcard] "example.com" = none ∧
    matchAutoPattern [apNameWildcard] "a.project.dev.example.com" = none := by decide

/-- C6: For every template string without the `:name` placeholder,
`addAutoPattern` returns `false` and the state — in particular the
template list — is unchanged. -/
theorem c6_missing_name_placeholder_fails (st : ManagerState) (t : String)
    (h : containsName t = false) :
    addAutoPattern st t = (st, false) := by
  simp [addAutoPattern, h]

/-- Concrete manager state for the C6 witness. -/
def c6wState : ManagerState := ⟨[], true, [autoStar], [], [], [], [], true⟩

/-- Witness for C6 at the concrete template `"*.example.com"`. -/
theorem c6_missing_name_placeholder_fails_witness :
    containsName "*.example.com" = false ∧
    addAutoPattern c6wState "*.example.com" = (c6wState, false) :=
  ⟨by decide, c6_missing_name_placeholder_fails c6wState "*.example.com" (by decide)⟩

/-- Concrete state for the C3 counterexample: one auto-pattern template,
auto-patterns enabled, empty caches. -/
def c3cexState : ManagerState := ⟨[], true, [apDotExample], [], [], [], [], true⟩

/-- Ungrouped tab with a fixed URL for the C3 counterexample. -/
def c3cexTab : Tab := ⟨some 1, some "https://dev.example.com/", -1⟩

/-- C3 counterexample: invoking the per-resource classify-and-assign
operation twice on the same unchanged URL produces TWO external
group-assignment requests, not one — the second invocation is a cache hit
but still calls `addTabToGroup` with the cached group name. -/
theorem c3_second_call_reassigns_cex :
    (handleTabUpdate c3cexState c3cexTab).2 = [⟨1, "Dev", none⟩] ∧
    (handleTabUpdate (handleTabUpdate c3cexState c3cexTab).1 c3cexTab).2 = [⟨1, "Dev", none⟩] ∧
    ((handleTabUpdate c3cexState c3cexTab).2.length +
      (handleTabUpdate (handleTabUpdate c3cexState c3cexTab).1 c3cexTab).2.length) ≠ 1 := by
  decide

/-- C3 (amended): the second invocation on a URL with a non-empty cached
group name is a pure cache hit in the sense that the state is unchanged
and no pattern matching runs (the result is independent of the pattern
lists and the enabled flag) — but it still issues exactly one external
group-assignment request for the cached group. -/
theorem c3_cache_hit_amended
    (st : ManagerState) (url g : String) (tid tid2 : Nat)
    (dps' : List DomainPattern) (aps' : List AutoPattern) (e' : Bool)
    (h1 : mapGet? st.processedUrls url = some g) (h2 : g ≠ "")
    (h3 : jsStartsWith url "chrome://" = false) (h4 : jsStartsWith url "brave://" = false) :
    handleTabUpdate st ⟨some tid, some url, -1⟩ = (st, [⟨tid, g, none⟩]) ∧
    handleTabUpdate
        {st with domainPatterns := dps', autoPatterns := aps', enableAutoPatterns := e'}
        ⟨some tid2, some url, -1⟩
      = ({st with domainPatterns := dps', autoPatterns := aps', enableAutoPatterns := e'},
         [⟨tid2, g, none⟩]) := by
  constructor <;> simp [handleTabUpdate, TAB_GROUP_ID_NONE, h1, h2, h3, h4]

/-- Concrete state for the C3 witness: the URL cache already holds a
positive entry. -/
def c3wState : ManagerState := ⟨[], true, [], [], [("https://app.test/", "Apps")], [], [], true⟩

/-- Witness for C3 (amended) at a concrete cached URL. -/
theorem c3_cache_hit_amended_witness :
    handleTabUpdate c3wState ⟨some 7, some "https://app.test/", -1⟩
      = (c3wState, [⟨7, "Apps", none⟩]) ∧
    handleTabUpdate
        {c3wState with domainPatterns := [], autoPatterns := [autoStar], enableAutoPatterns := false}
        ⟨some 8, some "https://app.test/", -1⟩
      = ({c3wState with
            domainPatterns := [], autoPatterns := [autoStar], enableAutoPatterns := false},
         [⟨8, "Apps", none⟩]) :=
  c3_cache_hit_amended c3wState "https://app.test/" "Apps" 7 8 [] [autoStar] false
    (by decide) (by decide) (by decide) (by decide)

/-- C7: a no-match is cached in the URL cache as the explicit value `""`
(present, not absent), the first call issues no assignment request, and a
subsequent call on the same URL short-circuits on the cached negative:
whatever the pattern configuration is at that point, it returns no
request and leaves the state unchanged — no pattern matching runs. -/
theorem c7_negative_cached_shortcircuit
    (st : ManagerState) (url domain : String) (tid tid2 : Nat)
    (dps' : List DomainPattern) (aps' : List AutoPattern) (e' : Bool)
    (h0 : jsStartsWith url "chrome://" = false) (h1 : jsStartsWith url "brave://" = false)
    (h2 : mapGet? st.processedUrls url = none)
    (h3 : hostnameOf url = some domain)
    (h4 : st.domainPatterns.find? (fun p => p.test domain) = none)
    (h5 : matchAutoPattern st.autoPatterns domain = none) :
    (handleTabUpdate st ⟨some tid, some url, -1⟩).2 = [] ∧
    mapGet? (handleTabUpdate st ⟨some tid, some url, -1⟩).1.processedUrls url = some "" ∧
    handleTabUpdate
        {(handleTabUpdate st ⟨some tid, some url, -1⟩).1 with
           domainPatterns := dps', autoPatterns := aps', enableAutoPatterns := e'}
        ⟨some tid2, some url, -1⟩
      = ({(handleTabUpdate st ⟨some tid, some url, -1⟩).1 with
            domainPatterns := dps', autoPatterns := aps', enableAutoPatterns := e'}, []) := by
  have key : handleTabUpdate st ⟨some tid, some url, -1⟩
      = ({st with processedUrls := mapSet st.processedUrls url ""}, []) := by
    by_cases he : st.enableAutoPatterns = true
    · simp [handleTabUpdate, TAB_GROUP_ID_NONE, h0, h1, h2, h3, h4, h5, he]
    · simp [handleTabUpdate, TAB_GROUP_ID_NONE, h0, h1, h2, h3, h4, he]
  refine ⟨?_, ?_, ?_⟩
  · rw [key]
  · rw [key]
    exact mapGet?_mapSet_self st.processedUrls url ""
  · rw [key]
    simp [handleTabUpdate, TAB_GROUP_ID_NONE, h0, h1, mapGet?_mapSet_self]

/-- Concrete state for the C7 witness: one auto-pattern template that does
not match `localhost`, no manual patterns. -/
def c7wState : ManagerState := ⟨[], true, [apDotExample], [], [], [], [], true⟩

/-- Witness for C7 at the concrete unmatched URL `https://localhost/`. -/
theorem c7_negative_cached_shortcircuit_witness :
    (handleTabUpdate c7wState ⟨some 3, some "https://localhost/", -1⟩).2 = [] ∧
    mapGet? (handleTabUpdate c7wState ⟨some 3, some "https://localhost/", -1⟩).1.processedUrls
        "https://localhost/" = some "" ∧
    handleTabUpdate
        {(handleTabUpdate c7wState ⟨some 3, some "https://localhost/", -1⟩).1 with
           domainPatterns := [mpGithub], autoPatterns := [autoStar], enableAutoPatterns := true}
        ⟨some 4, some "https://localhost/", -1⟩
      = ({(handleTabUpdate c7wState ⟨some 3, some "https://localhost/", -1⟩).1 with
            domainPatterns := [mpGithub], autoPatterns := [autoStar],
            enableAutoPatterns := true}, []) :=
  c7_negative_cached_shortcircuit c7wState "https://localhost/" "localhost" 3 4
    [mpGithub] [autoStar] true (by decide) (by decide) (by decide) (by decide) rfl (by decide)

/-- C8 counterexample: the persisted form of an auto-pattern is NOT just
the original template string — `saveSettings` serializes the compiled
regex source alongside it, and `loadPatternsFromStorage` rebuilds the
matcher from that saved regex source rather than recompiling the
template: loading a record whose `regexStr` is the bogus `"XYZ"` yields a
pattern whose matcher source is `"XYZ"`, not the compilation of its
template. -/
theorem c8_persists_compiled_regex_cex :
    createAutoPattern ":name.example.com" = some apDotExample ∧
    saveAutoPatternsData [apDotExample]
      = [⟨":name.example.com", "^([^.]+)\\.example\\.com$", 1⟩] ∧
    ("^([^.]+)\\.example\\.com$" : String) ≠ ":name.example.com" ∧
    (loadAutoPatternsData [⟨":name.example.com", "XYZ", 1⟩]).map AutoPattern.regexSrc
      = ["XYZ"] := by decide

/-- Mapping a saved auto-pattern list back through the field-for-field
reconstruction is the identity. -/
theorem saveLoadMapAux (aps : List AutoPattern) :
    ((saveAutoPatternsData aps).map
      fun p => (⟨p.template, p.regexStr, p.namePosition⟩ : AutoPattern)) = aps := by
  induction aps with
  | nil => rfl
  | cons p rest ih => exact congrArg (List.cons p) ih

/-- C8 (amended): auto-patterns are persisted with both their original
template string and the compiled regex source; for a non-empty list,
reload reconstructs each matcher directly from the saved regex source and
save followed by load is the identity — while a persisted empty list
(reachable by removing the last template) reloads as the default
`':name.*'` pattern, not as the empty list. -/
theorem c8_save_load_identity_amended (aps : List AutoPattern) (h : aps ≠ []) :
    loadAutoPatternsData (saveAutoPatternsData aps) = aps ∧
    loadAutoPatternsData (saveAutoPatternsData []) = defaultAutoPatterns := by
  refine ⟨?_, rfl⟩
  cases aps with
  | nil => exact absurd rfl h
  | cons a rest =>
    have hlen : 0 < (saveAutoPatternsData (a :: rest)).length := by
      simp [saveAutoPatternsData]
    unfold loadAutoPatternsData
    rw [if_pos hlen]
    exact saveLoadMapAux (a :: rest)

/-- Witness for C8 (amended) at the concrete one-element list holding the
compiled `":name.example.com"` pattern. -/
theorem c8_save_load_identity_amended_witness :
    loadAutoPatternsData (saveAutoPatternsData [apDotExample]) = [apDotExample] ∧
    loadAutoPatternsData (saveAutoPatternsData []) = defaultAutoPatterns :=
  c8_save_load_identity_amended [apDotExample] (by decide)

/-- Concrete state for the C9 counterexample, with nonempty caches and an
existing manual-pattern list to show they are untouched. -/
def c9cexState : ManagerState :=
  ⟨[], true, [autoStar], [("gitlab.com", "Gitlab")], [("https://gitlab.com/", "Gitlab")],
   [], [], true⟩

/-- C9 counterexample: for the concrete invalid manual-pattern string
`"("` (whose `new RegExp` compilation throws, modelled by the `none`
compilation outcome), the message handler leaves the state unchanged but
responds `success = true`: the failed add is NOT surfaced to the caller as
a rejected operation. -/
theorem c9_invalid_regex_reports_success_cex :
    addPatternMessage c9cexState none "(" "Group" none = (c9cexState, true) := rfl

/-- C9 (amended): for every manual-pattern string that fails to compile
(modelled by the `none` compilation outcome), the manual-pattern list and
both caches are unchanged — but the background message handler still
responds with success; the failure is only logged. -/
theorem c9_invalid_regex_state_unchanged_amended (st : ManagerState)
    (patternStr groupName : String) (color : Option String) :
    addPatternMessage st none patternStr groupName color = (st, true) := rfl

/-- C10: adding an auto-pattern template string equal to an existing
entry's template fails with `false` and leaves the whole state — template
list, persisted settings and both caches — unchanged; moreover
`addAutoPattern` preserves distinctness of the stored templates, so
duplicate templates can never coexist. -/
theorem c10_duplicate_template_rejected (st : ManagerState) (t : String)
    (h : st.autoPatterns.any (fun p => p.template = t) = true) :
    addAutoPattern st t = (st, false) ∧
    ∀ t', (st.autoPatterns.map AutoPattern.template).Nodup →
      ((addAutoPattern st t').1.autoPatterns.map AutoPattern.template).Nodup := by
  constructor
  · by_cases hc : containsName t = true
    · simp [addAutoPattern, hc, h]
    · simp [addAutoPattern, hc]
  · intro t' hnd
    by_cases h1 : containsName t' = true
    · by_cases h2 : st.autoPatterns.any (fun p => p.template = t') = true
      · simpa [addAutoPattern, h1, h2] using hnd
      · have hnotin : t' ∉ st.autoPatterns.map AutoPattern.template := by
          intro hmem
          rcases List.mem_map.mp hmem with ⟨p, hp, hpt⟩
          exact h2 (List.any_eq_true.mpr ⟨p, hp, by simp [hpt]⟩)
        simp [addAutoPattern, h1, h2, createAutoPattern, clearUrlCache, saveSettings,
          List.nodup_append, hnd, hnotin]
    · simpa [addAutoPattern, h1] using hnd

/-- Concrete state for the C10 witness: the template list already holds
`":name.example.com"`. -/
def c10wState : ManagerState :=
  ⟨[], true, [apDotExample], [("dev.example.com", "Dev")], [], [], [], true⟩

/-- Witness for C10: re-adding the already-present template
`":name.example.com"` returns `false` and the state is unchanged. -/
theorem c10_duplicate_template_rejected_witness :
    addAutoPattern c10wState ":name.example.com" = (c10wState, false) :=
  (c10_duplicate_template_rejected c10wState ":name.example.com" (by decide)).1
